import Mathlib

/-!
Verification of the `pyflschooldata` binding façade.

The repository is a thin Python wrapper (`src/pyflschooldata/__init__.py`)
re-exporting four functions of the submodule `pyflschooldata.core`, which in
turn delegates to the external `flschooldata` R package through rpy2 and
converts the returned R data frames into pandas DataFrames.

The `core` submodule itself is not part of the source tree; where its
behaviour decides a claim, the corresponding definition is modelled from the
specification and says so in its doc comment.  Everything about
`__init__.py` and the tests is embedded directly from the source.
-/

namespace FLSchoolData

/-- Shallowly embedded Python values, as far as the package surface needs
them: strings, lists of strings (for `__all__`), and function objects.
A function object carries an identity tag, mirroring Python object identity
for functions bound by `from ... import ...`. -/
inductive PyValue where
  | str (s : String)
  | strList (l : List String)
  | func (id : Nat)
deriving DecidableEq

/-- A Python value is a plain string exactly when it is a `str`. -/
def PyValue.isStr : PyValue → Bool
  | .str _ => true
  | _ => false

/-- A Python value is callable exactly when it is a function object. -/
def PyValue.callable : PyValue → Bool
  | .func _ => true
  | _ => false

/-- A module namespace: ordered attribute bindings, name to value. -/
abbrev Namespace := List (String × PyValue)

/-- Attribute lookup on a module namespace (`getattr`). -/
def lookupAttr (ns : Namespace) (name : String) : Option PyValue :=
  (ns.find? (fun p => p.1 == name)).map (fun p => p.2)

/-- Exceptions the embedded code can raise: an `ImportError` when a
`from ... import name` fails, and the façade's single error kind
`UpstreamError` raised when the inter-language bridge or the wrapped R
package fails. -/
inductive PyError where
  | importError (name : String)
  | upstreamError (msg : String)
deriving DecidableEq

/-- Modelled from the spec: the submodule `pyflschooldata.core` is not in the
source tree.  Per the spec (section 2 and 4.1) it defines the four façade
operations `fetch_enr`, `fetch_enr_multi`, `tidy_enr` and
`get_available_years`; its namespace therefore binds each of the four names
to a distinct function object. -/
def coreNamespace : Namespace :=
  [("fetch_enr", PyValue.func 0),
   ("fetch_enr_multi", PyValue.func 1),
   ("tidy_enr", PyValue.func 2),
   ("get_available_years", PyValue.func 3)]

/-- The names listed in the `from .core import (...)` statement of
`src/pyflschooldata/__init__.py`, in source order (also the value assigned
to `__all__` on line 16). -/
def importedNames : List String :=
  ["fetch_enr", "fetch_enr_multi", "tidy_enr", "get_available_years"]

/-- Semantics of `from src import n1, n2, ...`: each name is looked up in the
source module's namespace and bound, unchanged, in the importing module;
a missing name raises `ImportError`. -/
def fromImport (src : Namespace) : List String → Except PyError Namespace
  | [] => Except.ok []
  | n :: rest =>
    match lookupAttr src n with
    | some v =>
      match fromImport src rest with
      | Except.ok ns => Except.ok ((n, v) :: ns)
      | Except.error e => Except.error e
    | none => Except.error (PyError.importError n)

/-- Evaluation of the top-level module body of
`src/pyflschooldata/__init__.py`: run the `from .core import (...)`
statement, then bind `__version__ = "0.1.0"` and
`__all__ = ["fetch_enr", "fetch_enr_multi", "tidy_enr",
"get_available_years"]`.  The result is the package's namespace, or the
exception that escaped the module body. -/
def evalInitModule : Except PyError Namespace :=
  match fromImport coreNamespace importedNames with
  | Except.error e => Except.error e
  | Except.ok ns =>
      Except.ok (ns ++
        [("__version__", PyValue.str "0.1.0"),
         ("__all__", PyValue.strList importedNames)])

/-- The namespace of the imported `pyflschooldata` package (empty only if the
module body raised, which `package_import_succeeds` rules out). -/
def pyflschooldata : Namespace :=
  match evalInitModule with
  | Except.ok ns => ns
  | Except.error _ => []

/-- Tabular structure as returned by the external R package: column names
plus rows of cells. -/
structure RTable where
  columns : List String
  rows : List (List String)
deriving DecidableEq

/-- Host-native tabular structure (a pandas DataFrame): column names plus
rows of cells. -/
structure DataFrame where
  columns : List String
  rows : List (List String)
deriving DecidableEq

/-- Structural conversion of an R table to a pandas DataFrame: columns and
rows carried over as they are, no transformation, filtering or validation. -/
def r_to_pandas (t : RTable) : DataFrame :=
  DataFrame.mk t.columns t.rows

/-- Structural conversion of a pandas DataFrame back to an R table, used
when a previously fetched table is handed to the R tidying routine. -/
def pandas_to_r (d : DataFrame) : RTable :=
  RTable.mk d.columns d.rows

/-- An error coming out of the R side of the bridge, carrying its message. -/
structure RError where
  msg : String
deriving DecidableEq

/-- Modelled from the spec: the external `flschooldata` R package, reached
through the rpy2 bridge, as an oracle.  It offers the single-year fetch, the
multi-year fetch, the tidying routine and the availability metadata query;
each either returns a value or fails on the R side. -/
structure ExternalPackage where
  fetch : Int → Except RError RTable
  fetchMulti : List Int → Except RError RTable
  tidy : RTable → Except RError RTable
  availableYears : Except RError (List Int)

/-- Observable side effects a façade call can perform: a call across the
bridge into the external package, or a write to a module-level attribute.
The façade operations below never emit the latter. -/
inductive Effect where
  | extCall (fn : String)
  | moduleWrite (attr : String) (v : PyValue)
deriving DecidableEq

/-- Whether an effect is merely a call into the external package. -/
def Effect.isExtCall : Effect → Bool
  | .extCall _ => true
  | .moduleWrite _ _ => false

/-- Applying one effect to a module namespace: an external call leaves it
unchanged, a module write rebinds the attribute. -/
def applyEffect (ns : Namespace) : Effect → Namespace
  | .extCall _ => ns
  | .moduleWrite a v => (a, v) :: ns

/-- Applying a trace of effects to a module namespace, left to right. -/
def applyEffects (ns : Namespace) (es : List Effect) : Namespace :=
  es.foldl applyEffect ns

/-- Modelled from the spec: `core.fetch_enr`.  One call into the external
package's single-year enrollment fetch; on success the returned table is
structurally converted, on failure `UpstreamError` carries the R error's
message unchanged.  The second component is the trace of side effects the
call performs. -/
def fetch_enr (ext : ExternalPackage) (year : Int) :
    Except PyError DataFrame × List Effect :=
  (match ext.fetch year with
   | Except.error e => Except.error (PyError.upstreamError e.msg)
   | Except.ok t => Except.ok (r_to_pandas t),
   [Effect.extCall "flschooldata::fetch_enr"])

/-- Modelled from the spec: `core.fetch_enr_multi`, the multi-year variant
of `fetch_enr`, with the same conversion and failure contract. -/
def fetch_enr_multi (ext : ExternalPackage) (years : List Int) :
    Except PyError DataFrame × List Effect :=
  (match ext.fetchMulti years with
   | Except.error e => Except.error (PyError.upstreamError e.msg)
   | Except.ok t => Except.ok (r_to_pandas t),
   [Effect.extCall "flschooldata::fetch_enr_multi"])

/-- Modelled from the spec: `core.tidy_enr`.  The previously fetched table
is handed, structurally, to the external package's tidying routine, and the
routine's result is converted back; failures become `UpstreamError`. -/
def tidy_enr (ext : ExternalPackage) (df : DataFrame) :
    Except PyError DataFrame × List Effect :=
  (match ext.tidy (pandas_to_r df) with
   | Except.error e => Except.error (PyError.upstreamError e.msg)
   | Except.ok t => Except.ok (r_to_pandas t),
   [Effect.extCall "flschooldata::tidy_enr"])

/-- Modelled from the spec: `core.get_available_years`.  One call into the
external package's metadata query; the years come back as a host-native
sequence. -/
def get_available_years (ext : ExternalPackage) :
    Except PyError (List Int) × List Effect :=
  (match ext.availableYears with
   | Except.error e => Except.error (PyError.upstreamError e.msg)
   | Except.ok ys => Except.ok ys,
   [Effect.extCall "flschooldata::get_available_years"])

/-- A concrete enrollment table for witnesses. -/
def sampleTable : RTable :=
  RTable.mk ["district_id", "year", "grade", "enrollment"]
    [["01", "2023", "KG", "1042"], ["01", "2023", "01", "998"]]

/-- A concrete external package whose every operation succeeds. -/
def okExt : ExternalPackage :=
  ExternalPackage.mk
    (fun _ => Except.ok sampleTable)
    (fun _ => Except.ok sampleTable)
    (fun t => Except.ok t)
    (Except.ok [2014, 2015, 2016])

/-- A concrete external package whose every operation fails on the R side. -/
def failingExt : ExternalPackage :=
  ExternalPackage.mk
    (fun _ => Except.error (RError.mk "RRuntimeError: could not fetch"))
    (fun _ => Except.error (RError.mk "RRuntimeError: could not fetch"))
    (fun _ => Except.error (RError.mk "RRuntimeError: could not fetch"))
    (Except.error (RError.mk "RRuntimeError: could not fetch"))

/-- C1: evaluating the top-level module body of `pyflschooldata` — the
`from .core import (fetch_enr, fetch_enr_multi, tidy_enr,
get_available_years)` statement followed by the `__version__` and `__all__`
assignments — completes normally, yielding the package namespace rather
than an exception. -/
theorem package_import_succeeds :
    evalInitModule = Except.ok pyflschooldata := by
  rfl

/-- C2: after the import, the attribute `pyflschooldata.__version__` exists,
is a plain string, and equals exactly "0.1.0". -/
theorem version_is_plain_string :
    lookupAttr pyflschooldata "__version__" = some (PyValue.str "0.1.0") ∧
    (PyValue.str "0.1.0").isStr = true := by
  decide

/-- C3: after the import, each of the four names `fetch_enr`,
`fetch_enr_multi`, `tidy_enr` and `get_available_years` is present as an
attribute of the package and is bound to a callable object. -/
theorem public_functions_present_and_callable :
    importedNames.all
      (fun n => (lookupAttr pyflschooldata n).any PyValue.callable) = true := by
  decide

/-- C4: whenever the external call behind `fetch_enr` or `fetch_enr_multi`
fails, the façade raises `UpstreamError` carrying the upstream error's
message unchanged (no translation or enrichment), and the call's effect
trace is a single bridge call (no retry, no recovery). -/
theorem upstream_error_propagates_unchanged (ext : ExternalPackage)
    (y : Int) (ys : List Int) (e : RError) :
    (ext.fetch y = Except.error e →
      fetch_enr ext y =
        (Except.error (PyError.upstreamError e.msg),
         [Effect.extCall "flschooldata::fetch_enr"])) ∧
    (ext.fetchMulti ys = Except.error e →
      fetch_enr_multi ext ys =
        (Except.error (PyError.upstreamError e.msg),
         [Effect.extCall "flschooldata::fetch_enr_multi"])) := by
  constructor
  · intro h
    simp only [fetch_enr, h]
  · intro h
    simp only [fetch_enr_multi, h]

/-- C4 witness: at the concrete failing external package, `fetch_enr` for
year 2023 raises `UpstreamError` with the R error message unchanged after a
single bridge call. -/
theorem upstream_error_propagates_unchanged_witness :
    failingExt.fetch 2023 =
      Except.error (RError.mk "RRuntimeError: could not fetch") ∧
    fetch_enr failingExt 2023 =
      (Except.error
         (PyError.upstreamError "RRuntimeError: could not fetch"),
       [Effect.extCall "flschooldata::fetch_enr"]) :=
  ⟨rfl,
   (upstream_error_propagates_unchanged failingExt 2023 [2023]
     (RError.mk "RRuntimeError: could not fetch")).1 rfl⟩

/-- C5: the façade's conversion of every table the external package returns
preserves the columns and the rows (hence the row count) exactly, with no
transformation, filtering or validation, for each of the three
table-returning operations. -/
theorem conversion_preserves_columns_and_rows (ext : ExternalPackage)
    (y : Int) (ys : List Int) (t : RTable) :
    ((r_to_pandas t).columns = t.columns ∧ (r_to_pandas t).rows = t.rows) ∧
    (ext.fetch y = Except.ok t →
      (fetch_enr ext y).1 = Except.ok (r_to_pandas t)) ∧
    (ext.fetchMulti ys = Except.ok t →
      (fetch_enr_multi ext ys).1 = Except.ok (r_to_pandas t)) ∧
    (∀ df : DataFrame, ext.tidy (pandas_to_r df) = Except.ok t →
      (tidy_enr ext df).1 = Except.ok (r_to_pandas t)) := by
  refine ⟨⟨rfl, rfl⟩, ?_, ?_, ?_⟩
  · intro h
    simp only [fetch_enr, h]
  · intro h
    simp only [fetch_enr_multi, h]
  · intro df h
    simp only [tidy_enr, h]

/-- C5 witness: at the concrete succeeding external package, `fetch_enr`
for year 2023 returns the sample table converted, columns and rows
untouched. -/
theorem conversion_preserves_columns_and_rows_witness :
    okExt.fetch 2023 = Except.ok sampleTable ∧
    (fetch_enr okExt 2023).1 = Except.ok (r_to_pandas sampleTable) :=
  ⟨rfl,
   (conversion_preserves_columns_and_rows okExt 2023 [2023]
     sampleTable).2.1 rfl⟩

/-- C6: the declared public surface `__all__` is exactly the four function
names, and the version string is exposed separately as a plain string
attribute; no other name is exported. -/
theorem all_exports_exactly_four :
    lookupAttr pyflschooldata "__all__" =
      some (PyValue.strList
        ["fetch_enr", "fetch_enr_multi", "tidy_enr",
         "get_available_years"]) ∧
    lookupAttr pyflschooldata "__version__" =
      some (PyValue.str "0.1.0") := by
  decide

/-- C7: the façade is stateless: whatever the external package does, every
effect any of the four operations performs is a call into the external
package (never a write to a module attribute), so every module namespace —
in particular the package's own, holding `__version__`, `__all__` and the
four function bindings — is left unchanged by every call. -/
theorem facade_has_no_mutable_state (ns : Namespace)
    (ext : ExternalPackage) (y : Int) (ys : List Int) (df : DataFrame) :
    applyEffects ns (fetch_enr ext y).2 = ns ∧
    applyEffects ns (fetch_enr_multi ext ys).2 = ns ∧
    applyEffects ns (tidy_enr ext df).2 = ns ∧
    applyEffects ns (get_available_years ext).2 = ns ∧
    ((fetch_enr ext y).2 ++ (fetch_enr_multi ext ys).2 ++
      (tidy_enr ext df).2 ++ (get_available_years ext).2).all
        Effect.isExtCall = true :=
  ⟨rfl, rfl, rfl, rfl, rfl⟩

/-- C8: every successful call of `get_available_years` is one forward to
the external package's metadata query, returning the available years as a
host-native sequence, unchanged. -/
theorem get_available_years_forwards_metadata (ext : ExternalPackage)
    (ys : List Int) :
    ext.availableYears = Except.ok ys →
    get_available_years ext =
      (Except.ok ys,
       [Effect.extCall "flschooldata::get_available_years"]) := by
  intro h
  simp only [get_available_years, h]

/-- C8 witness: at the concrete succeeding external package, the call
returns the years 2014–2016 as a host-native sequence. -/
theorem get_available_years_forwards_metadata_witness :
    okExt.availableYears = Except.ok [2014, 2015, 2016] ∧
    get_available_years okExt =
      (Except.ok [2014, 2015, 2016],
       [Effect.extCall "flschooldata::get_available_years"]) :=
  ⟨rfl, get_available_years_forwards_metadata okExt [2014, 2015, 2016] rfl⟩

/-- C9: every successful call of `tidy_enr` forwards the given previously
fetched table through the external package's tidying routine and returns
that routine's result converted to a DataFrame, after a single bridge
call. -/
theorem tidy_enr_forwards_through_routine (ext : ExternalPackage)
    (df : DataFrame) (t : RTable) :
    ext.tidy (pandas_to_r df) = Except.ok t →
    tidy_enr ext df =
      (Except.ok (r_to_pandas t),
       [Effect.extCall "flschooldata::tidy_enr"]) := by
  intro h
  simp only [tidy_enr, h]

/-- C9 witness: at the concrete succeeding external package, whose tidying
routine returns its input table, `tidy_enr` on the converted sample table
returns that table converted back. -/
theorem tidy_enr_forwards_through_routine_witness :
    okExt.tidy (pandas_to_r (r_to_pandas sampleTable)) =
      Except.ok sampleTable ∧
    tidy_enr okExt (r_to_pandas sampleTable) =
      (Except.ok (r_to_pandas sampleTable),
       [Effect.extCall "flschooldata::tidy_enr"]) :=
  ⟨rfl,
   tidy_enr_forwards_through_routine okExt (r_to_pandas sampleTable)
     sampleTable rfl⟩

/-- C10: after the import, each of the four public names on the package is
bound to the identical function object defined in the `core` submodule:
the attribute lookup on the package agrees with the lookup on `core` for
all four names, so the package adds no wrapping layer. -/
theorem public_names_identical_to_core :
    lookupAttr pyflschooldata "fetch_enr" =
      lookupAttr coreNamespace "fetch_enr" ∧
    lookupAttr pyflschooldata "fetch_enr_multi" =
      lookupAttr coreNamespace "fetch_enr_multi" ∧
    lookupAttr pyflschooldata "tidy_enr" =
      lookupAttr coreNamespace "tidy_enr" ∧
    lookupAttr pyflschooldata "get_available_years" =
      lookupAttr coreNamespace "get_available_years" := by
  decide

end FLSchoolData
